import Mathlib

/-!
Shallow embedding of the MAFFA backend (`src/main.py`): the gig-listing
normalization layer, the contact-submission endpoint and the database
diagnostic endpoint, together with proofs of their specified properties.

Stored documents are weakly typed Python values; we embed the value universe
that the endpoints can observe.  Wall-clock time (`datetime.utcnow`) and the
document store are external collaborators and are passed in as parameters.
-/

/-- A Python `datetime` value, as produced by `datetime.fromisoformat` or
`datetime.utcnow`. -/
structure PyDatetime where
  year : Nat
  month : Nat
  day : Nat
  hour : Nat
  minute : Nat
  second : Nat
  microsecond : Nat
deriving DecidableEq, Repr

/-- The universe of Python values a stored document field can hold, as far as
the endpoints can distinguish them: `None`, strings, datetimes, integers and
booleans. -/
inductive Value where
  | pyNone : Value
  | str : String → Value
  | dt : PyDatetime → Value
  | int : Int → Value
  | bool : Bool → Value
deriving DecidableEq, Repr

/-- A raw stored document: a mapping from string keys to values (association
list; Python dict keys are unique, lookup takes the first binding). -/
abbrev RawRecord := List (String × Value)

/-- Python `d.get(k)`: the stored value when the key is present, `None`
otherwise. -/
def rawGet (d : RawRecord) (k : String) : Value :=
  match d.lookup k with
  | some v => v
  | Option.none => Value.pyNone

/-- Python `d.get(k, dflt)`: the stored value when the key is present, the
default otherwise. -/
def rawGetD (d : RawRecord) (k : String) (dflt : Value) : Value :=
  match d.lookup k with
  | some v => v
  | Option.none => dflt

/-- Python truthiness (`bool(v)`): `None` and zero and the empty string are
falsy; datetimes are always truthy. -/
def Value.truthy : Value → Bool
  | .pyNone => false
  | .str s => !s.isEmpty
  | .dt _ => true
  | .int n => n != 0
  | .bool b => b

/-- Value of a decimal digit character, if it is one. -/
def digitVal? (c : Char) : Option Nat :=
  if c.isDigit then some (c.toNat - 48) else Option.none

/-- Two decimal digit characters as a number below 100. -/
def num2 (a b : Char) : Option Nat :=
  match digitVal? a, digitVal? b with
  | some x, some y => some (x * 10 + y)
  | _, _ => Option.none

/-- Four decimal digit characters as a number below 10000. -/
def num4 (a b c d : Char) : Option Nat :=
  match num2 a b, num2 c d with
  | some x, some y => some (x * 100 + y)
  | _, _ => Option.none

/-- Parse the time part `HH:MM[:SS[.ffffff]]` of an ISO-8601 string into
(hour, minute, second, microsecond). -/
def parseTime : List Char → Option (Nat × Nat × Nat × Nat)
  | [h1, h2, ':', m1, m2] =>
    match num2 h1 h2, num2 m1 m2 with
    | some h, some m =>
      if h ≤ 23 ∧ m ≤ 59 then some (h, m, 0, 0) else Option.none
    | _, _ => Option.none
  | [h1, h2, ':', m1, m2, ':', s1, s2] =>
    match num2 h1 h2, num2 m1 m2, num2 s1 s2 with
    | some h, some m, some s =>
      if h ≤ 23 ∧ m ≤ 59 ∧ s ≤ 59 then some (h, m, s, 0) else Option.none
    | _, _, _ => Option.none
  | [h1, h2, ':', m1, m2, ':', s1, s2, '.', u1, u2, u3, u4, u5, u6] =>
    match num2 h1 h2, num2 m1 m2, num2 s1 s2, num2 u1 u2, num2 u3 u4, num2 u5 u6 with
    | some h, some m, some s, some a, some b, some c =>
      if h ≤ 23 ∧ m ≤ 59 ∧ s ≤ 59 then
        some (h, m, s, (a * 100 + b) * 100 + c)
      else Option.none
    | _, _, _, _, _, _ => Option.none
  | _ => Option.none

/-- Model of the standard-library collaborator `datetime.fromisoformat`
(Python stdlib, external to this repository): parses `YYYY-MM-DD`, optionally
followed by a single separator character and a time part, into a datetime;
returns failure on any other shape.  Timezone suffixes are out of the model;
every claim quantifies over the parser result, so only the concrete example
dates exercised below depend on the shapes covered here. -/
def fromisoformat (s : String) : Option PyDatetime :=
  match s.toList with
  | [y1, y2, y3, y4, '-', mo1, mo2, '-', d1, d2] =>
    match num4 y1 y2 y3 y4, num2 mo1 mo2, num2 d1 d2 with
    | some y, some mo, some da =>
      if 1 ≤ mo ∧ mo ≤ 12 ∧ 1 ≤ da ∧ da ≤ 31 then
        some ⟨y, mo, da, 0, 0, 0, 0⟩
      else Option.none
    | _, _, _ => Option.none
  | y1 :: y2 :: y3 :: y4 :: '-' :: mo1 :: mo2 :: '-' :: d1 :: d2 :: _sep :: rest =>
    match num4 y1 y2 y3 y4, num2 mo1 mo2, num2 d1 d2, parseTime rest with
    | some y, some mo, some da, some (h, mi, se, us) =>
      if 1 ≤ mo ∧ mo ≤ 12 ∧ 1 ≤ da ∧ da ≤ 31 then
        some ⟨y, mo, da, h, mi, se, us⟩
      else Option.none
    | _, _, _, _ => Option.none
  | _ => Option.none

/-- A validated gig entry, as returned by the listing endpoint
(`schemas.Gig`): every field is populated; `ticket_url` is the only field
whose value may be null. -/
structure Gig where
  title : String
  venue : String
  city : String
  date : PyDatetime
  ticket_url : Option String
  is_confirmed : Bool
deriving DecidableEq, Repr

/-- Coercion of a value to a pydantic `str` field: strings pass, anything
else fails validation. -/
def asStr : Value → Option String
  | .str s => some s
  | _ => Option.none

/-- Coercion of a value to a pydantic `Optional[str]` field: `None` and
strings pass, anything else fails validation. -/
def asOptStr : Value → Option (Option String)
  | .pyNone => some Option.none
  | .str s => some (some s)
  | _ => Option.none

/-- Coercion of a value to a pydantic `datetime` field: datetimes pass,
anything else fails validation. -/
def asDatetime : Value → Option PyDatetime
  | .dt t => some t
  | _ => Option.none

/-- Coercion of a value to a pydantic `bool` field: booleans pass, anything
else fails validation. -/
def asBool : Value → Option Bool
  | .bool b => some b
  | _ => Option.none

/-- Modelled from the spec: the `Gig` pydantic model constructor of
`schemas.py`, a repository file not present under `src/`.  Per the spec data
model, `title`, `venue` and `city` are text, `date` is a timestamp,
`ticket_url` is optional text and `is_confirmed` is a boolean; constructing a
`Gig` from a value that does not match its declared field type raises a
validation error, embedded here as `Option.none`. -/
def Gig.validate (title venue city date ticket_url confirmed : Value) : Option Gig :=
  match asStr title, asStr venue, asStr city, asDatetime date,
      asOptStr ticket_url, asBool confirmed with
  | some t, some v, some c, some dt, some u, some b =>
    some ⟨t, v, c, dt, u, b⟩
  | _, _, _, _, _, _ => Option.none

/-- Lines 34-39 of `main.py`: the date value is parsed only when it is a
string; a string that parses as ISO-8601 becomes the parsed datetime, a
string that fails to parse becomes `now` (`datetime.utcnow()`), and every
non-string value passes through unchanged. -/
def coerceDate (now : PyDatetime) (v : Value) : Value :=
  match v with
  | .str s =>
    match fromisoformat s with
    | some t => Value.dt t
    | Option.none => Value.dt now
  | v => v

/-- The per-record normalization in the body of the `for` loop of
`list_gigs` (lines 34-47 of `main.py`): field defaults via `d.get`, date
coercion, truthiness coercion of `is_confirmed`, then `Gig` construction.
`Option.none` embeds a raised validation error. -/
def normalizeRecord (now : PyDatetime) (d : RawRecord) : Option Gig :=
  Gig.validate
    (rawGetD d "title" (Value.str ""))
    (rawGetD d "venue" (Value.str ""))
    (rawGetD d "city" (Value.str ""))
    (coerceDate now (rawGet d "date"))
    (rawGet d "ticket_url")
    (Value.bool (Value.truthy (rawGetD d "is_confirmed" (Value.bool true))))

/-- The whole `for` loop of `list_gigs`: records are normalized in store
order and appended one by one; the first record whose normalization raises
aborts the loop, embedded as `Option.none` for the whole batch. -/
def normalizeAll (now : PyDatetime) : List RawRecord → Option (List Gig)
  | [] => some []
  | d :: ds =>
    match normalizeRecord now d with
    | some g =>
      match normalizeAll now ds with
      | some gs => some (g :: gs)
      | Option.none => Option.none
    | Option.none => Option.none

/-- Lines 27-51 of `main.py`: `list_gigs` queries the store for up to `limit`
records of kind "gig" (the store collaborator `get_documents` is a parameter;
it either raises, embedded as `Except.error`, or returns raw records), then
normalizes them inside a single `try` block; any error on the path yields the
empty list.  The route default for `limit` is 20. -/
def list_gigs (get_documents : String → Int → Except String (List RawRecord))
    (limit : Int) (now : PyDatetime) : List Gig :=
  match get_documents "gig" limit with
  | Except.error _ => []
  | Except.ok docs =>
    match normalizeAll now docs with
    | some gigs => gigs
    | Option.none => []

/-- Modelled from the spec: the contact `Message` schema of `schemas.py` is
not present under `src/`; the spec says only that its fields are
sender-provided and strictly validated before the endpoint body runs, so a
validated message is embedded as an opaque payload. -/
structure Message where
  payload : String
deriving DecidableEq, Repr

/-- Result of the contact endpoint: the success body
`status: ok, id: docId`, or an `HTTPException` with status code and
detail. -/
inductive ContactResponse where
  | ok : String → ContactResponse
  | httpError : Nat → String → ContactResponse
deriving DecidableEq, Repr

/-- Lines 53-60 of `main.py`: `submit_contact` persists the validated message
via the store collaborator `create_document` (a parameter; `Except.error`
embeds a raised exception) and returns the generated id on success; on
failure it raises `HTTPException(500, str(e))`. -/
def submit_contact (msg : Message)
    (create_document : Message → Except String String) : ContactResponse :=
  match create_document msg with
  | Except.ok docId => ContactResponse.ok docId
  | Except.error e => ContactResponse.httpError 500 e

/-- The database client handle `db` of the `database` module, as observed by
`test_database`: an optional `name` attribute and a `list_collection_names`
method that returns collection names or raises. -/
structure DbClient where
  hasName : Bool
  name : String
  list_collection_names : Except String (List String)

/-- The state `from database import db` can be in at the top of
`test_database`: the import raises `ImportError`, the import raises some
other exception, `db` is `None`, or `db` is a client handle. -/
inductive DbState where
  | importError : DbState
  | importException : String → DbState
  | dbIsNone : DbState
  | client : DbClient → DbState

/-- The process environment as read by `test_database`: `os.getenv` for
`DATABASE_URL` and `DATABASE_NAME` (`Option.none` embeds an unset
variable). -/
structure Env where
  database_url : Option String
  database_name : Option String

/-- The diagnostic report returned by `test_database`.  The `database_url`
and `database_name` fields start as Python `None` (`Option.none`) and hold
strings once assigned. -/
structure TestReport where
  backend : String
  database : String
  database_url : Option String
  database_name : Option String
  connection_status : String
  collections : List String
deriving DecidableEq, Repr

/-- Python truthiness of an `os.getenv` result: an unset variable gives
`None` (falsy) and a set variable gives its string value, falsy exactly when
empty. -/
def getenvTruthy : Option String → Bool
  | Option.none => false
  | some s => !s.isEmpty

/-- Lines 62-100 of `main.py`: `test_database` builds the default report,
updates it according to the state of the database module and client, and
finally overwrites `database_url` and `database_name` with set markers
computed from the truthiness of the two environment variables. -/
def test_database (db : DbState) (env : Env) : TestReport :=
  let response : TestReport :=
    { backend := "✅ Running"
      database := "❌ Not Available"
      database_url := Option.none
      database_name := Option.none
      connection_status := "Not Connected"
      collections := [] }
  let response :=
    match db with
    | DbState.importError =>
      { response with
        database := "❌ Database module not found (run enable-database first)" }
    | DbState.importException e =>
      { response with database := "❌ Error: " ++ e.take 50 }
    | DbState.dbIsNone =>
      { response with database := "⚠️  Available but not initialized" }
    | DbState.client c =>
      let response :=
        { response with
          database := "✅ Available"
          database_url := some "✅ Configured"
          database_name := some (if c.hasName then c.name else "✅ Connected")
          connection_status := "Connected" }
      match c.list_collection_names with
      | Except.ok collections =>
        { response with
          collections := collections.take 10
          database := "✅ Connected & Working" }
      | Except.error e =>
        { response with database := "⚠️  Connected but Error: " ++ e.take 50 }
  { response with
    database_url :=
      some (if getenvTruthy env.database_url then "✅ Set" else "❌ Not Set")
    database_name :=
      some (if getenvTruthy env.database_name then "✅ Set" else "❌ Not Set") }

/-- A concrete wall-clock instant used by concrete evaluations. -/
def sampleNow : PyDatetime := ⟨2025, 1, 1, 0, 0, 0, 0⟩

/-- Characterization of successful `Gig` validation: construction succeeds
with `g` exactly when every field value coerces to the corresponding field
of `g`. -/
theorem validate_eq_some {title venue city date ticket_url confirmed : Value}
    {g : Gig} :
    Gig.validate title venue city date ticket_url confirmed = some g ↔
      asStr title = some g.title ∧ asStr venue = some g.venue ∧
      asStr city = some g.city ∧ asDatetime date = some g.date ∧
      asOptStr ticket_url = some g.ticket_url ∧
      asBool confirmed = some g.is_confirmed := by
  constructor
  · intro h
    unfold Gig.validate at h
    split at h
    · rename_i t v c dt u b ht hv hc hd hu hb
      injection h with h
      subst h
      exact ⟨ht, hv, hc, hd, hu, hb⟩
    · exact Option.noConfusion h
  · rintro ⟨ht, hv, hc, hd, hu, hb⟩
    unfold Gig.validate
    rw [ht, hv, hc, hd, hu, hb]

/-- Claim C1 (counterexample): the claim that per-record normalization never
raises for every raw record fails at the empty record (all keys missing): the
stored date is then `None`, which is neither a string nor a timestamp, and
`Gig` validation raises, embedded as `Option.none`. -/
theorem normalize_total_counterexample :
    normalizeRecord sampleNow [] = Option.none := rfl

/-- Claim C1 (amended): per-record normalization never raises and produces a
fully-populated `Gig` provided the stored field values match their declared
types: the date is a string or a timestamp, `title`, `venue` and `city` are
strings when present, and `ticket_url` is a string or null.  The resulting
`Gig` has every required field present by construction, `ticket_url` being
the only field whose value may be null. -/
theorem normalize_typed_record_total (now : PyDatetime) (d : RawRecord)
    (hdate : (∃ s, rawGet d "date" = Value.str s) ∨
      ∃ t, rawGet d "date" = Value.dt t)
    (htitle : ∃ s, rawGetD d "title" (Value.str "") = Value.str s)
    (hvenue : ∃ s, rawGetD d "venue" (Value.str "") = Value.str s)
    (hcity : ∃ s, rawGetD d "city" (Value.str "") = Value.str s)
    (hurl : rawGet d "ticket_url" = Value.pyNone ∨
      ∃ s, rawGet d "ticket_url" = Value.str s) :
    ∃ g : Gig, normalizeRecord now d = some g := by
  obtain ⟨t, ht⟩ := htitle
  obtain ⟨v, hv⟩ := hvenue
  obtain ⟨c, hc⟩ := hcity
  have hd : ∃ pd, asDatetime (coerceDate now (rawGet d "date")) = some pd := by
    rcases hdate with ⟨s, hs⟩ | ⟨pd, hpd⟩
    · rw [hs]
      cases hfi : fromisoformat s with
      | none => exact ⟨now, by simp [coerceDate, hfi, asDatetime]⟩
      | some t2 => exact ⟨t2, by simp [coerceDate, hfi, asDatetime]⟩
    · exact ⟨pd, by rw [hpd]; rfl⟩
  obtain ⟨pd, hpd⟩ := hd
  have hu : ∃ u, asOptStr (rawGet d "ticket_url") = some u := by
    rcases hurl with h | ⟨s, h⟩
    · exact ⟨Option.none, by rw [h]; rfl⟩
    · exact ⟨some s, by rw [h]; rfl⟩
  obtain ⟨u, hu⟩ := hu
  refine ⟨⟨t, v, c, pd, u,
    Value.truthy (rawGetD d "is_confirmed" (Value.bool true))⟩, ?_⟩
  unfold normalizeRecord
  rw [validate_eq_some]
  exact ⟨by rw [ht]; rfl, by rw [hv]; rfl, by rw [hc]; rfl, hpd, hu, rfl⟩

/-- Concrete instance of the amended claim C1: a record whose date is a
stored timestamp normalizes to some `Gig`. -/
theorem normalize_typed_record_total_witness :
    ∃ g : Gig,
      normalizeRecord sampleNow
        [("date", Value.dt ⟨2024, 6, 1, 20, 0, 0, 0⟩)] = some g :=
  normalize_typed_record_total sampleNow
    [("date", Value.dt ⟨2024, 6, 1, 20, 0, 0, 0⟩)]
    (Or.inr ⟨⟨2024, 6, 1, 20, 0, 0, 0⟩, by decide⟩)
    ⟨"", by decide⟩ ⟨"", by decide⟩ ⟨"", by decide⟩ (Or.inl (by decide))

/-- Claim C2: the date-coercion policy of `list_gigs`: a stored timestamp is
used unchanged; a string that parses as ISO-8601 becomes exactly the parsed
timestamp (in particular "2024-06-01T20:00:00" yields that timestamp); a
string that fails to parse becomes the current wall-clock time `now`. -/
theorem date_coercion_policy (now t : PyDatetime) (s1 s2 : String)
    (h1 : fromisoformat s1 = some t)
    (h2 : fromisoformat s2 = Option.none) :
    coerceDate now (Value.dt t) = Value.dt t ∧
    coerceDate now (Value.str s1) = Value.dt t ∧
    coerceDate now (Value.str s2) = Value.dt now ∧
    coerceDate now (Value.str "2024-06-01T20:00:00") =
      Value.dt ⟨2024, 6, 1, 20, 0, 0, 0⟩ := by
  refine ⟨rfl, ?_, ?_, ?_⟩
  · simp [coerceDate, h1]
  · simp [coerceDate, h2]
  · have h : fromisoformat "2024-06-01T20:00:00" =
        some ⟨2024, 6, 1, 20, 0, 0, 0⟩ := by decide
    simp [coerceDate, h]

/-- Concrete instance of claim C2: the example ISO string parses to its exact
timestamp and the unparseable string "not-a-date" becomes `now`. -/
theorem date_coercion_policy_witness :
    coerceDate sampleNow (Value.str "2024-06-01T20:00:00") =
      Value.dt ⟨2024, 6, 1, 20, 0, 0, 0⟩ ∧
    coerceDate sampleNow (Value.str "not-a-date") = Value.dt sampleNow :=
  ⟨(date_coercion_policy sampleNow ⟨2024, 6, 1, 20, 0, 0, 0⟩
      "2024-06-01T20:00:00" "not-a-date" (by decide) (by decide)).2.1,
   (date_coercion_policy sampleNow ⟨2024, 6, 1, 20, 0, 0, 0⟩
      "2024-06-01T20:00:00" "not-a-date" (by decide) (by decide)).2.2.1⟩

/-- Claim C3: whatever the query limit and the store behaviour, any error on
the listing path — the store raising on query (including an absent database)
or normalization raising on the returned batch — makes `list_gigs` return
the empty sequence; the endpoint body never re-raises on this path, so no
server error is surfaced. -/
theorem list_gigs_error_policy
    (get_documents : String → Int → Except String (List RawRecord))
    (limit : Int) (now : PyDatetime) :
    (∀ e, get_documents "gig" limit = Except.error e →
      list_gigs get_documents limit now = []) ∧
    (∀ docs, get_documents "gig" limit = Except.ok docs →
      normalizeAll now docs = Option.none →
      list_gigs get_documents limit now = []) := by
  constructor
  · intro e he
    simp [list_gigs, he]
  · intro docs hdocs hnorm
    simp [list_gigs, hdocs, hnorm]

/-- A store collaborator that raises on every query. -/
def storeRaises : String → Int → Except String (List RawRecord) :=
  fun _ _ => Except.error "database not configured"

/-- A store collaborator that returns one malformed record (no date). -/
def storeBadRecord : String → Int → Except String (List RawRecord) :=
  fun _ _ => Except.ok [[]]

/-- Concrete instance of claim C3: a raising store and a store returning a
malformed batch both make `list_gigs` return the empty list. -/
theorem list_gigs_error_policy_witness :
    list_gigs storeRaises 20 sampleNow = [] ∧
    list_gigs storeBadRecord 20 sampleNow = [] :=
  ⟨(list_gigs_error_policy storeRaises 20 sampleNow).1
      "database not configured" rfl,
   (list_gigs_error_policy storeBadRecord 20 sampleNow).2 [[]] rfl rfl⟩

/-- A text field built by `d.get(k, "")` and validated as `str` equals the
stored string when the key is present and `""` when the key is absent. -/
theorem asStr_getD_spec {d : RawRecord} {k r : String}
    (h : asStr (rawGetD d k (Value.str "")) = some r) :
    (d.lookup k = Option.none → r = "") ∧
    ∀ s, d.lookup k = some (Value.str s) → r = s := by
  unfold rawGetD at h
  refine ⟨fun hk => ?_, fun s hk => ?_⟩
  · rw [hk] at h
    exact (Option.some.inj h).symm
  · rw [hk] at h
    exact (Option.some.inj h).symm

/-- Claim C4: whenever normalization succeeds, each of the text fields
`title`, `venue` and `city` is the empty string when its key is absent from
the stored record, and equals the stored string when present. -/
theorem text_field_defaults (now : PyDatetime) (d : RawRecord) (g : Gig)
    (hg : normalizeRecord now d = some g) :
    (d.lookup "title" = Option.none → g.title = "") ∧
    (d.lookup "venue" = Option.none → g.venue = "") ∧
    (d.lookup "city" = Option.none → g.city = "") ∧
    (∀ s, d.lookup "title" = some (Value.str s) → g.title = s) ∧
    (∀ s, d.lookup "venue" = some (Value.str s) → g.venue = s) ∧
    (∀ s, d.lookup "city" = some (Value.str s) → g.city = s) := by
  unfold normalizeRecord at hg
  rw [validate_eq_some] at hg
  obtain ⟨ht, hv, hc, -, -, -⟩ := hg
  obtain ⟨ht0, hts⟩ := asStr_getD_spec ht
  obtain ⟨hv0, hvs⟩ := asStr_getD_spec hv
  obtain ⟨hc0, hcs⟩ := asStr_getD_spec hc
  exact ⟨ht0, hv0, hc0, hts, hvs, hcs⟩

/-- A record with a stored timestamp date and a stored city only. -/
def recDateCity : RawRecord :=
  [("date", Value.dt ⟨2024, 6, 1, 20, 0, 0, 0⟩), ("city", Value.str "Paris")]

/-- The gig `recDateCity` normalizes to. -/
def gigDateCity : Gig :=
  ⟨"", "", "Paris", ⟨2024, 6, 1, 20, 0, 0, 0⟩, Option.none, true⟩

/-- Concrete instance of claim C4: with `title` and `venue` absent and
`city` stored as "Paris", normalization yields empty strings for the absent
fields and "Paris" for the stored one. -/
theorem text_field_defaults_witness :
    normalizeRecord sampleNow recDateCity = some gigDateCity ∧
    gigDateCity.title = "" ∧ gigDateCity.venue = "" ∧
    gigDateCity.city = "Paris" :=
  ⟨by decide,
   (text_field_defaults sampleNow recDateCity gigDateCity (by decide)).1
     (by decide),
   (text_field_defaults sampleNow recDateCity gigDateCity (by decide)).2.1
     (by decide),
   (text_field_defaults sampleNow recDateCity gigDateCity
     (by decide)).2.2.2.2.2 "Paris" (by decide)⟩

/-- Claim C5: whenever normalization succeeds, `is_confirmed` is the Python
truthiness of the stored value when the key is present (in particular a
stored 0 gives false) and defaults to true when the key is absent. -/
theorem is_confirmed_truthiness (now : PyDatetime) (d : RawRecord) (g : Gig)
    (hg : normalizeRecord now d = some g) :
    (∀ v, d.lookup "is_confirmed" = some v →
      g.is_confirmed = v.truthy) ∧
    (d.lookup "is_confirmed" = Option.none → g.is_confirmed = true) ∧
    (d.lookup "is_confirmed" = some (Value.int 0) →
      g.is_confirmed = false) := by
  unfold normalizeRecord at hg
  rw [validate_eq_some] at hg
  obtain ⟨-, -, -, -, -, hb⟩ := hg
  unfold rawGetD at hb
  refine ⟨fun v hv => ?_, fun hnone => ?_, fun h0 => ?_⟩
  · rw [hv] at hb
    exact (Option.some.inj hb).symm
  · rw [hnone] at hb
    exact (Option.some.inj hb).symm
  · rw [h0] at hb
    exact (Option.some.inj hb).symm

/-- A record with a timestamp date and `is_confirmed` stored as the
integer 0. -/
def recUnconfirmed : RawRecord :=
  [("date", Value.dt ⟨2024, 6, 1, 20, 0, 0, 0⟩), ("is_confirmed", Value.int 0)]

/-- The gig `recUnconfirmed` normalizes to. -/
def gigUnconfirmed : Gig :=
  ⟨"", "", "", ⟨2024, 6, 1, 20, 0, 0, 0⟩, Option.none, false⟩

/-- A record with a timestamp date and no `is_confirmed` key. -/
def recDateOnly : RawRecord :=
  [("date", Value.dt ⟨2024, 6, 1, 20, 0, 0, 0⟩)]

/-- The gig `recDateOnly` normalizes to. -/
def gigDateOnly : Gig :=
  ⟨"", "", "", ⟨2024, 6, 1, 20, 0, 0, 0⟩, Option.none, true⟩

/-- Concrete instance of claim C5: `is_confirmed = 0` normalizes to false
and an absent `is_confirmed` normalizes to true. -/
theorem is_confirmed_truthiness_witness :
    normalizeRecord sampleNow recUnconfirmed = some gigUnconfirmed ∧
    gigUnconfirmed.is_confirmed = false ∧
    normalizeRecord sampleNow recDateOnly = some gigDateOnly ∧
    gigDateOnly.is_confirmed = true :=
  ⟨by decide,
   (is_confirmed_truthiness sampleNow recUnconfirmed gigUnconfirmed
     (by decide)).2.2 (by decide),
   by decide,
   (is_confirmed_truthiness sampleNow recDateOnly gigDateOnly
     (by decide)).2.1 (by decide)⟩

/-- Claim C6: for every validated message and store behaviour,
`submit_contact` returns the success marker with the identifier generated by
`create_document` exactly when the store call succeeds; when the store call
raises, it fails with HTTP 500 carrying the underlying error text verbatim
as the detail. -/
theorem submit_contact_result (msg : Message)
    (create_document : Message → Except String String) :
    (∀ i, submit_contact msg create_document = ContactResponse.ok i ↔
      create_document msg = Except.ok i) ∧
    (∀ e, create_document msg = Except.error e →
      submit_contact msg create_document =
        ContactResponse.httpError 500 e) := by
  constructor
  · intro i
    unfold submit_contact
    cases h : create_document msg with
    | ok j => simp
    | error e => simp
  · intro e he
    simp [submit_contact, he]

/-- A store collaborator whose `create_document` succeeds with a fixed id. -/
def createSucceeds : Message → Except String String :=
  fun _ => Except.ok "abc123"

/-- A store collaborator whose `create_document` raises. -/
def createRaises : Message → Except String String :=
  fun _ => Except.error "connection refused"

/-- A validated contact message. -/
def sampleMessage : Message := ⟨"hello"⟩

/-- Concrete instance of claim C6: a healthy store yields the generated id
with the success marker; a raising store yields HTTP 500 with the thrown
text. -/
theorem submit_contact_result_witness :
    submit_contact sampleMessage createSucceeds =
      ContactResponse.ok "abc123" ∧
    submit_contact sampleMessage createRaises =
      ContactResponse.httpError 500 "connection refused" :=
  ⟨((submit_contact_result sampleMessage createSucceeds).1 "abc123").mpr rfl,
   (submit_contact_result sampleMessage createRaises).2
     "connection refused" rfl⟩

/-- One failing record anywhere in the batch makes the whole loop raise. -/
theorem normalizeAll_none_of_mem {now : PyDatetime} {docs : List RawRecord}
    {d : RawRecord} (hmem : d ∈ docs)
    (hfail : normalizeRecord now d = Option.none) :
    normalizeAll now docs = Option.none := by
  induction docs with
  | nil => cases hmem
  | cons head tail ih =>
    rcases List.mem_cons.mp hmem with heq | htail
    · subst heq
      simp [normalizeAll, hfail]
    · cases hh : normalizeRecord now head with
      | none => simp [normalizeAll, hh]
      | some g => simp [normalizeAll, hh, ih htail]

/-- Claim C7: the whole query-and-normalize loop of `list_gigs` sits in a
single try block, so if normalizing any one record of the returned batch
raises, `list_gigs` returns the empty list, discarding even the records of
the same batch that normalized successfully. -/
theorem batch_failure_not_isolated
    (get_documents : String → Int → Except String (List RawRecord))
    (limit : Int) (now : PyDatetime) (docs : List RawRecord) (d : RawRecord)
    (hstore : get_documents "gig" limit = Except.ok docs)
    (hmem : d ∈ docs) (hfail : normalizeRecord now d = Option.none) :
    list_gigs get_documents limit now = [] := by
  simp [list_gigs, hstore, normalizeAll_none_of_mem hmem hfail]

/-- A store collaborator returning one well-formed record followed by one
malformed record (no date). -/
def mixedStore : String → Int → Except String (List RawRecord) :=
  fun _ _ => Except.ok [recDateCity, []]

/-- Concrete instance of claim C7: the first record of the mixed batch
normalizes successfully, yet `list_gigs` returns the empty list because the
second record fails. -/
theorem batch_failure_not_isolated_witness :
    normalizeRecord sampleNow recDateCity = some gigDateCity ∧
    list_gigs mixedStore 20 sampleNow = [] :=
  ⟨by decide,
   batch_failure_not_isolated mixedStore 20 sampleNow [recDateCity, []] []
     rfl (by decide) rfl⟩

/-- Claim C8: `test_database` is total over every state of the database
module, client handle and store, and each branch records its own
human-readable status string in the report: module not importable, import
failing otherwise, client not initialized, connected and working, and
connected but erroring while listing collections; a connected client always
reports the Connected connection status. -/
theorem test_database_branch_statuses (env : Env) (e : String) (hn : Bool)
    (nm : String) (names : List String) (c : DbClient) :
    (test_database DbState.importError env).database =
      "❌ Database module not found (run enable-database first)" ∧
    (test_database (DbState.importException e) env).database =
      "❌ Error: " ++ e.take 50 ∧
    (test_database DbState.dbIsNone env).database =
      "⚠️  Available but not initialized" ∧
    (test_database (DbState.client ⟨hn, nm, Except.ok names⟩) env).database =
      "✅ Connected & Working" ∧
    (test_database (DbState.client ⟨hn, nm, Except.error e⟩) env).database =
      "⚠️  Connected but Error: " ++ e.take 50 ∧
    (test_database (DbState.client c) env).connection_status =
      "Connected" := by
  refine ⟨rfl, rfl, rfl, rfl, rfl, ?_⟩
  cases c with
  | mk chn cnm clc => cases clc <;> rfl

/-- Claim C9 (counterexample): the report does not depend only on whether
the environment variables are set: with `DATABASE_URL` set to the empty
string in one run and to a nonempty string in the other (both runs differ
only in the value, not the presence, of the variable), the `database_url`
fields of the two reports differ, because the code tests Python truthiness
of the `os.getenv` result rather than presence. -/
theorem env_presence_only_counterexample :
    (test_database DbState.importError
      ⟨some "", some "config"⟩).database_url = some "❌ Not Set" ∧
    (test_database DbState.importError
      ⟨some "mongodb://localhost", some "config"⟩).database_url =
        some "✅ Set" ∧
    (test_database DbState.importError
      ⟨some "", some "config"⟩).database_url ≠
      (test_database DbState.importError
        ⟨some "mongodb://localhost", some "config"⟩).database_url := by
  refine ⟨rfl, rfl, ?_⟩
  decide

/-- The final two assignments of `test_database` overwrite `database_url`
and `database_name` with markers computed solely from the truthiness of the
two environment variables, whatever the database state. -/
theorem test_database_env_fields (db : DbState) (u n : Option String) :
    (test_database db ⟨u, n⟩).database_url =
      some (if getenvTruthy u then "✅ Set" else "❌ Not Set") ∧
    (test_database db ⟨u, n⟩).database_name =
      some (if getenvTruthy n then "✅ Set" else "❌ Not Set") := by
  cases db with
  | importError => exact ⟨rfl, rfl⟩
  | importException e => exact ⟨rfl, rfl⟩
  | dbIsNone => exact ⟨rfl, rfl⟩
  | client c =>
    cases c with
    | mk chn cnm clc => cases clc <;> exact ⟨rfl, rfl⟩

/-- Claim C9 (amended): the `database_url` and `database_name` fields of the
report depend only on whether each environment variable is set to a
NON-EMPTY string (Python truthiness of the `os.getenv` result): two runs
whose variables agree in truthiness produce identical report fields, and
each field is always one of the two fixed markers, so the variable values
never appear in these fields. -/
theorem env_report_truthiness_only (db : DbState) (u1 u2 n1 n2 : Option String)
    (hu : getenvTruthy u1 = getenvTruthy u2)
    (hn : getenvTruthy n1 = getenvTruthy n2) :
    (test_database db ⟨u1, n1⟩).database_url =
      (test_database db ⟨u2, n2⟩).database_url ∧
    (test_database db ⟨u1, n1⟩).database_name =
      (test_database db ⟨u2, n2⟩).database_name ∧
    ((test_database db ⟨u1, n1⟩).database_url = some "✅ Set" ∨
      (test_database db ⟨u1, n1⟩).database_url = some "❌ Not Set") ∧
    ((test_database db ⟨u1, n1⟩).database_name = some "✅ Set" ∨
      (test_database db ⟨u1, n1⟩).database_name = some "❌ Not Set") := by
  obtain ⟨hu1, hn1⟩ := test_database_env_fields db u1 n1
  obtain ⟨hu2, hn2⟩ := test_database_env_fields db u2 n2
  refine ⟨?_, ?_, ?_, ?_⟩
  · rw [hu1, hu2, hu]
  · rw [hn1, hn2, hn]
  · rw [hu1]
    cases hgu : getenvTruthy u1 <;> simp [hgu]
  · rw [hn1]
    cases hgn : getenvTruthy n1 <;> simp [hgn]

/-- Concrete instance of the amended claim C9: two runs whose variables hold
different nonempty values produce identical `database_url` and
`database_name` report fields. -/
theorem env_report_truthiness_only_witness :
    (test_database DbState.importError
      ⟨some "mongodb://a", some "db1"⟩).database_url =
      (test_database DbState.importError
        ⟨some "mongodb://b", some "db2"⟩).database_url ∧
    (test_database DbState.importError
      ⟨some "mongodb://a", some "db1"⟩).database_name =
      (test_database DbState.importError
        ⟨some "mongodb://b", some "db2"⟩).database_name :=
  ⟨(env_report_truthiness_only DbState.importError (some "mongodb://a")
      (some "mongodb://b") (some "db1") (some "db2")
      (by decide) (by decide)).1,
   (env_report_truthiness_only DbState.importError (some "mongodb://a")
      (some "mongodb://b") (some "db1") (some "db2")
      (by decide) (by decide)).2.1⟩

/-- Claim C10: when collection introspection succeeds, the `collections`
field of the report is exactly the first 10 collection names returned by the
store, in store order: it equals `names.take 10`, its length is the minimum
of 10 and the number of names, and with more than 10 names exactly 10
appear. -/
theorem collections_first_ten (env : Env) (hn : Bool) (nm : String)
    (names : List String) :
    (test_database (DbState.client ⟨hn, nm, Except.ok names⟩)
        env).collections = names.take 10 ∧
    (test_database (DbState.client ⟨hn, nm, Except.ok names⟩)
        env).collections.length = min 10 names.length ∧
    (10 < names.length →
      (test_database (DbState.client ⟨hn, nm, Except.ok names⟩)
          env).collections.length = 10) := by
  have h : (test_database (DbState.client ⟨hn, nm, Except.ok names⟩)
      env).collections = names.take 10 := rfl
  refine ⟨h, ?_, fun hlen => ?_⟩
  · rw [h, List.length_take]
  · rw [h, List.length_take]
    omega

/-- Eleven collection names in store order. -/
def elevenNames : List String :=
  ["c0", "c1", "c2", "c3", "c4", "c5", "c6", "c7", "c8", "c9", "c10"]

/-- An environment with both variables unset. -/
def emptyEnv : Env := ⟨Option.none, Option.none⟩

/-- Concrete instance of claim C10: with 11 collection names, the report
lists exactly the first 10, in store order. -/
theorem collections_first_ten_witness :
    (test_database (DbState.client ⟨true, "maffa", Except.ok elevenNames⟩)
        emptyEnv).collections =
      ["c0", "c1", "c2", "c3", "c4", "c5", "c6", "c7", "c8", "c9"] ∧
    (test_database (DbState.client ⟨true, "maffa", Except.ok elevenNames⟩)
        emptyEnv).collections.length = 10 := by
  refine ⟨?_, (collections_first_ten emptyEnv true "maffa" elevenNames).2.2
    (by decide)⟩
  rw [(collections_first_ten emptyEnv true "maffa" elevenNames).1]
  rfl
